import Mathlib

/-!
Shallow embedding of the CloudFormation custom-resource handlers of the
sagemaker-hyperpod-cluster-setup repository, together with proofs about the
reconciliation behaviour its specification describes.

Each handler's Python file is embedded in its own namespace:
* `TieredCache` — eks/cloudformation/resources/tiered-cache-config/lambda_function.py
* `ClusterPolicy` — eks/cloudformation/resources/cluster-policy/lambda_function.py
* `CertManager` — eks/cloudformation/resources/cert-manager-installer/lambda_function.py
* `Hpto` — eks/cloudformation/resources/hpto-addon-installer/lambda_function.py
* `DataScientist` — eks/cloudformation/resources/data-scientist-setup/lambda_function.py
* `Observability` — eks/cloudformation/resources/observability-stack/lambda_function.py
* `ClusterCreator` — the tiered-storage validation of the hyperpod-cluster-creator
  lambda, whose implementation file is absent from the source tree (only its unit
  tests are present); it is modelled from the specification.

Python floats are modelled by `PyFloat`, an exact (unreduced) fraction of
integers: every numeric value the handlers manipulate (whole GiB counts,
percentages, 1-GiB buffers) is exactly representable in binary floating point,
so exact rational arithmetic agrees with the Python float arithmetic on all
inputs considered here.  Fallible Python code is modelled with `Except`; calls
to external systems (boto3, kubectl, helm) are modelled by passing their
outcomes in as explicit "world" parameters, and the observable mutations a
handler issues are collected in an explicit effect list.  Polling loops are
embedded over an abstract clock (`Nat` seconds since the loop started), and
`cfnresponse.send` calls are collected in a list of `CfnSend` records.
-/

deriving instance DecidableEq for Except

/-- Exact model of the Python floats flowing through the handlers: an
unreduced fraction `num / den`.  Every constructor and operation below keeps
`den` positive, and all values handled by this code are exactly representable
in IEEE double precision, so these exact operations agree with Python's. -/
structure PyFloat where
  num : Int
  den : Int
deriving DecidableEq, Repr

namespace PyFloat

/-- Embed a Python int (JSON integer, int literal) as a float. -/
def ofInt (n : Int) : PyFloat := ⟨n, 1⟩

/-- The rational value a `PyFloat` denotes (specification-level reading). -/
def toRat (a : PyFloat) : ℚ := (a.num : ℚ) / (a.den : ℚ)

/-- Well-formed: positive denominator (holds for every value built here). -/
def WF (a : PyFloat) : Prop := 0 < a.den

def mul (a b : PyFloat) : PyFloat := ⟨a.num * b.num, a.den * b.den⟩

/-- Division (used only with divisors of nonzero numerator). -/
def div (a b : PyFloat) : PyFloat :=
  if b.num < 0 then ⟨-(a.num * b.den), a.den * (-b.num)⟩
  else ⟨a.num * b.den, a.den * b.num⟩

def sub (a b : PyFloat) : PyFloat :=
  ⟨a.num * b.den - b.num * a.den, a.den * b.den⟩

/-- `a <= b` by cross multiplication (exact, for positive denominators). -/
def le (a b : PyFloat) : Bool := a.num * b.den ≤ b.num * a.den

/-- `a < b` by cross multiplication (exact, for positive denominators). -/
def lt (a b : PyFloat) : Bool := a.num * b.den < b.num * a.den

/-- `a == b` by cross multiplication (exact, for positive denominators). -/
def beq (a b : PyFloat) : Bool := a.num * b.den = b.num * a.den

/-- Python `int(x)`: truncation toward zero. -/
def trunc (a : PyFloat) : Int := a.num.tdiv a.den

end PyFloat

/-- The acknowledgment payload handed to one `cfnresponse.send` call:
the CloudFormation-level status constant (`cfnresponse.SUCCESS` /
`cfnresponse.FAILED`), the `Status` and `Reason` entries of the
`responseData` dict (when present), and the physical resource id argument. -/
structure CfnSend where
  cfnStatus : String
  dataStatus : Option String
  dataReason : Option String
  physicalResourceId : Option String
deriving DecidableEq, Repr

/-- Python `str.lower()` on one ASCII character. -/
def pyCharLower (c : Char) : Char :=
  if c.isUpper then Char.ofNat (c.toNat + 32) else c

/-- Python `str.lower()`. -/
def pyLower (s : String) : String := String.mk (s.data.map pyCharLower)

/-- Python `str.startswith(pre)`. -/
def pyStartsWith (s pre : String) : Bool := pre.data.isPrefixOf s.data

/-- Whether `sub` occurs as a contiguous run inside `l`. -/
def containsSub (l sub : List Char) : Bool :=
  match l with
  | [] => sub.isPrefixOf []
  | c :: t => sub.isPrefixOf (c :: t) || containsSub t sub

/-- Python `sub in s` on strings: substring occurrence. -/
def strContains (s sub : String) : Bool := containsSub s.data sub.data

namespace TieredCache

/-- `INSTANCE_TYPE_MEMORY`: the hardcoded instance-type → memory (GiB) mapping. -/
def INSTANCE_TYPE_MEMORY : List (String × Int) :=
  [ ("ml.p6-b300.48xlarge", 4096)
  , ("ml.p6-b200.48xlarge", 2048)
  , ("ml.p6e-gb200.36xlarge", 960)
  , ("ml.p5.4xlarge", 256)
  , ("ml.p5.48xlarge", 2048)
  , ("ml.p5e.48xlarge", 2048)
  , ("ml.p5en.48xlarge", 2048)
  , ("ml.p4d.24xlarge", 1152)
  , ("ml.p4de.24xlarge", 1152)
  , ("ml.g5.8xlarge", 128)
  ]

/-- `get_instance_type_memory(instance_type)`.  `testing` is the value of the
`TESTING` environment toggle.  Raises when the instance type is unknown, or
when it is not a P-series type in production mode. -/
def get_instance_type_memory (instance_type : String) (testing : Bool) :
    Except String Int :=
  match (INSTANCE_TYPE_MEMORY.lookup instance_type) with
  | none =>
      .error ("Instance type '" ++ instance_type ++
        "' not found in supported instance types.")
  | some memory_gib =>
      if testing then
        .ok memory_gib
      else if pyStartsWith (pyLower instance_type) "ml.p" then
        .ok memory_gib
      else
        .error ("Instance type '" ++ instance_type ++ "' is not supported. " ++
          "KV caching is only supported on P-series instances (ml.p*).")

/-- `format_memory_value_for_config(memory_gib)`: rounds down to whole GiB and
renders as TiB when a whole multiple of 1024, else GiB, else MiB. -/
def format_memory_value_for_config (memory_gib : PyFloat) : String :=
  let m : Int := memory_gib.trunc
  if m ≥ 1024 then
    let memory_tib : PyFloat := (PyFloat.ofInt m).div (PyFloat.ofInt 1024)
    if memory_tib.beq (PyFloat.ofInt memory_tib.trunc) then
      toString memory_tib.trunc ++ "TiB"
    else
      toString m ++ "GiB"
  else if m ≥ 1 then
    toString m ++ "GiB"
  else
    toString (m * 1024) ++ "MiB"

/-- `format_memory_value_for_k8s(memory_gib)`: converts to whole MiB, then
renders as Ti / Gi / Mi. -/
def format_memory_value_for_k8s (memory_gib : PyFloat) : String :=
  let memory_mib : Int := (memory_gib.mul (PyFloat.ofInt 1024)).trunc
  if memory_mib ≥ 1024 ∧ memory_mib % 1024 = 0 then
    let memory_gi : Int := memory_mib / 1024
    if memory_gi ≥ 1024 then
      if memory_gi % 1024 = 0 then
        toString (memory_gi / 1024) ++ "Ti"
      else
        toString memory_gi ++ "Gi"
    else
      toString memory_gi ++ "Gi"
  else
    toString memory_mib ++ "Mi"

/-- The percentage guard opening `calculate_memory_allocation_and_cache_capacity`:
`if percentage <= 0 or percentage > 100: raise ValueError(...)`, re-raised as
`Exception(f"Invalid memory percentage value ...")`.  The input is the parsed
numeric value of the percentage (Python interpolates it into the message;
the rendering of the number is elided here). -/
def percentage_check (percentage : PyFloat) : Except String PyFloat :=
  if percentage.le (PyFloat.ofInt 0) || (PyFloat.ofInt 100).lt percentage then
    .error "Invalid memory percentage value: Invalid percentage"
  else
    .ok percentage

/-- The buffer guard: `KV_CACHE_MEMORY_BUFFER_GB` (default `'1'`) parsed as a
float must not be negative. -/
def buffer_check (buffer_gib : PyFloat) : Except String PyFloat :=
  if buffer_gib.lt (PyFloat.ofInt 0) then
    .error "Invalid KV_CACHE_MEMORY_BUFFER_GB value: Buffer cannot be negative"
  else
    .ok buffer_gib

/-- Result record of `calculate_memory_allocation_and_cache_capacity`. -/
structure MemoryCalc where
  memory_allocation_k8s_str : String
  memory_allocation_gib : PyFloat
  cache_capacity_config_str : String
  cache_capacity_gib : Int
deriving DecidableEq, Repr

/-- `calculate_memory_allocation_and_cache_capacity(instance_type, memory_percentage)`.
`buffer_gib` is the parsed numeric value of the `KV_CACHE_MEMORY_BUFFER_GB`
environment variable (its default is 1), `testing` the `TESTING` toggle. -/
def calculate_memory_allocation_and_cache_capacity
    (instance_type : String) (memory_percentage : PyFloat)
    (buffer_gib : PyFloat) (testing : Bool) : Except String MemoryCalc := do
  let percentage ← percentage_check memory_percentage
  let total_memory_gib ← get_instance_type_memory instance_type testing
  let memory_allocation_gib :=
    (PyFloat.ofInt total_memory_gib).mul (percentage.div (PyFloat.ofInt 100))
  let memory_allocation_k8s_str := format_memory_value_for_k8s memory_allocation_gib
  let buffer ← buffer_check buffer_gib
  let cache_capacity_gib :=
    if (PyFloat.ofInt 0).lt buffer then memory_allocation_gib.sub buffer
    else memory_allocation_gib
  if cache_capacity_gib.le (PyFloat.ofInt 0) then
    .error "Calculated cache capacity is invalid"
  else
    .ok { memory_allocation_k8s_str := memory_allocation_k8s_str
        , memory_allocation_gib := memory_allocation_gib
        , cache_capacity_config_str := format_memory_value_for_config cache_capacity_gib
        , cache_capacity_gib := cache_capacity_gib.trunc }

/-- The polling loop of `wait_for_daemonset_ready(namespace, daemonset_name,
timeout_minutes)`, over an abstract clock: `readyAt t` is whether the
DaemonSet status read at elapsed time `t` has `desiredNumberScheduled > 0` and
`numberReady` equal to it (a failing `kubectl get` is observed as not ready:
the code catches the error and keeps polling); each iteration sleeps 5 s.
Raising the timeout exception is an `Except.error`; the result is paired with
the model clock at the moment of return. -/
def wait_for_daemonset_ready_from (readyAt : Nat → Bool)
    (timeout_seconds elapsed : Nat) : Except String Bool × Nat :=
  if elapsed < timeout_seconds then
    if readyAt elapsed then (Except.ok true, elapsed)
    else wait_for_daemonset_ready_from readyAt timeout_seconds (elapsed + 5)
  else
    (Except.error "Timeout waiting for DaemonSet to be ready", elapsed)
termination_by timeout_seconds - elapsed
decreasing_by simp_wf; omega

/-- `wait_for_daemonset_ready`, with `timeout_seconds = timeout_minutes * 60`
and the loop started at elapsed time 0. -/
def wait_for_daemonset_ready (readyAt : Nat → Bool) (timeout_minutes : Nat) :
    Except String Bool × Nat :=
  wait_for_daemonset_ready_from readyAt (timeout_minutes * 60) 0

/-- Parsed value of the `TIERED_KV_CACHE_CONFIG` environment variable: the
JSON object's three recognised keys (`none` = key absent).  JSON parsing
itself is external to the embedding; an unset or empty variable is `none` at
the next level up. -/
structure KVCacheJson where
  kvCacheMode : Option String
  nvmeMode : Option String
  instanceGroup : List String
deriving DecidableEq, Repr

/-- Parsed value of the `TIERED_STORAGE_CONFIG` environment variable. -/
structure StorageJson where
  mode : Option String
  instanceMemoryAllocationPercentage : Option PyFloat
deriving DecidableEq, Repr

/-- The configuration dict `parse_config_from_env` builds. -/
structure ParsedConfig where
  kv_cache_enabled : Bool
  nvme_enabled : Bool
  tiered_storage_enabled : Bool
  memory_percentage : PyFloat
  instance_type : Option String
  instance_groups : List String
deriving DecidableEq, Repr

/-- `get_instance_type_from_instance_group(instance_groups, name)`: looks the
named instance group up in the pre-fetched SageMaker instance groups
(name → instance type pairs); raises when absent. -/
def get_instance_type_from_instance_group
    (instance_groups : List (String × String)) (instance_group_name : String) :
    Except String String :=
  match instance_groups.lookup instance_group_name with
  | some t => .ok t
  | none =>
      .error ("Instance group '" ++ instance_group_name ++
        "' not found in cluster.")

/-- `parse_config_from_env(cluster_info)`: builds the configuration dict from
the two JSON environment variables.  Modes are compared case-insensitively
with `enable`; the memory percentage defaults to 20; the instance type is
resolved from the first instance group when one is given, and a resolution
failure is wrapped as an `Error processing TIERED_KV_CACHE_CONFIG` exception. -/
def parse_config_from_env (kvCacheConfig : Option KVCacheJson)
    (storageConfig : Option StorageJson)
    (clusterInstanceGroups : List (String × String)) :
    Except String ParsedConfig := do
  let kvPart ←
    match kvCacheConfig with
    | none => Except.ok (false, false, ([] : List String), (none : Option String))
    | some j =>
        let kv_cache_mode := j.kvCacheMode.getD "Disable"
        let kv_enabled := pyLower kv_cache_mode == "enable"
        let nvme_mode := j.nvmeMode.getD "Disable"
        let nvme_enabled := pyLower nvme_mode == "enable"
        match j.instanceGroup with
        | [] => Except.ok (kv_enabled, nvme_enabled, ([] : List String), (none : Option String))
        | g :: gs =>
            match get_instance_type_from_instance_group clusterInstanceGroups g with
            | .ok t =>
                Except.ok (kv_enabled, nvme_enabled, g :: gs, some t)
            | .error e =>
                Except.error ("Error processing TIERED_KV_CACHE_CONFIG: " ++ e)
  let storagePart :=
    match storageConfig with
    | none => (false, PyFloat.ofInt 20)
    | some sc =>
        (pyLower (sc.mode.getD "Disable") == "enable",
         sc.instanceMemoryAllocationPercentage.getD (PyFloat.ofInt 20))
  Except.ok
    { kv_cache_enabled := kvPart.1
    , nvme_enabled := kvPart.2.1
    , tiered_storage_enabled := storagePart.1
    , memory_percentage := storagePart.2
    , instance_type := kvPart.2.2.2
    , instance_groups := kvPart.2.2.1 }

/-- The mutations `configure_kv_cache` can issue against the cluster. -/
inductive K8sEffect
  | applyConfigMap
  | patchDaemonSet
  | deletePods
deriving DecidableEq, Repr

/-- The fields of `configure_kv_cache`'s result dict the claims concern. -/
structure KVResp where
  kvCacheConfigured : Bool
  reason : String
deriving DecidableEq, Repr

/-- World parameters of `configure_kv_cache`: the parsed configuration
environment variables, the buffer/testing environment, and the outcomes of
the kubectl interactions of the enabled path.  The regex-level detail of
`prepare_configmap_updates` is abstracted into `configMapChanged`, the
observable outcome of applying the update function to the current ConfigMap
content; every kubectl outcome is consulted only after the enabled guard
passes. -/
structure KVWorld where
  kvCacheConfig : Option KVCacheJson
  storageConfig : Option StorageJson
  bufferGib : PyFloat
  testing : Bool
  getConfigMapOk : Except String Unit
  configMapChanged : Bool
  applyConfigMapOk : Except String Unit
  getDaemonsetOk : Except String Unit
  patchDaemonsetOk : Except String Unit
  deletePodsOk : Except String Unit
  dsReadyAt : Nat → Bool

/-- The DaemonSet part of `configure_kv_cache`'s enabled path: prepare and
patch the DaemonSet (the patch always counts as a change when it succeeds),
then restart the pods and wait for readiness. -/
def configure_after_configmap (fx : List K8sEffect) (w : KVWorld) :
    KVResp × List K8sEffect :=
  match w.getDaemonsetOk with
  | .error e =>
      (⟨false, "KV cache configuration failed: Failed to get current DaemonSet: " ++ e⟩, fx)
  | .ok _ =>
    match w.patchDaemonsetOk with
    | .error e =>
        (⟨false, "KV cache configuration failed: Failed to update DaemonSet: " ++ e⟩, fx)
    | .ok _ =>
      let fx := fx ++ [K8sEffect.patchDaemonSet]
      match w.deletePodsOk with
      | .error e =>
          (⟨false, "KV cache configuration failed: Failed to fast restart DaemonSet: " ++ e⟩,
           fx)
      | .ok _ =>
        let fx := fx ++ [K8sEffect.deletePods]
        match (wait_for_daemonset_ready w.dsReadyAt 10).1 with
        | .error e => (⟨false, "KV cache configuration failed: " ++ e⟩, fx)
        | .ok _ =>
            (⟨true, "KV cache configuration completed successfully"⟩, fx)

/-- `configure_kv_cache(cluster_info)`: parses the configuration, returns a
disabled result before touching the cluster unless both tiered storage and KV
cache are enabled, and otherwise updates the ConfigMap, patches the DaemonSet
and restarts its pods.  Any exception is caught and converted into a
`KVCacheConfigured: False` failure dict.  The second component lists the
mutations successfully issued. -/
def configure_kv_cache (clusterInstanceGroups : List (String × String))
    (w : KVWorld) : KVResp × List K8sEffect :=
  match parse_config_from_env w.kvCacheConfig w.storageConfig clusterInstanceGroups with
  | .error e => (⟨false, "KV cache configuration failed: " ++ e⟩, [])
  | .ok config =>
    if ¬ (config.tiered_storage_enabled && config.kv_cache_enabled) then
      (⟨false, "KV cache not enabled (check TIERED_STORAGE_CONFIG.Mode and TIERED_KV_CACHE_CONFIG.KVCacheMode)"⟩,
       [])
    else
      match config.instance_type with
      | none =>
          (⟨false, "KV cache configuration failed: Instance type could not be determined from InstanceGroup"⟩,
           [])
      | some instance_type =>
        match calculate_memory_allocation_and_cache_capacity instance_type
            config.memory_percentage w.bufferGib w.testing with
        | .error e => (⟨false, "KV cache configuration failed: " ++ e⟩, [])
        | .ok _memory_calc =>
          match w.getConfigMapOk with
          | .error e =>
              (⟨false, "KV cache configuration failed: Failed to update ConfigMap: " ++ e⟩,
               [])
          | .ok _ =>
            if w.configMapChanged then
              match w.applyConfigMapOk with
              | .error e =>
                  (⟨false, "KV cache configuration failed: Failed to apply ConfigMap: " ++ e⟩,
                   [])
              | .ok _ => configure_after_configmap [K8sEffect.applyConfigMap] w
            else
              configure_after_configmap [] w

/-- The three environment variables the tiered-cache `lambda_handler`
validates (`os.environ.get`, with `none` covering unset or empty). -/
structure Env where
  hyperpodClusterName : Option String
  clusterName : Option String
  region : Option String
deriving DecidableEq, Repr

/-- The tiered-cache `lambda_handler(event, context)`.  `clusterInfo` is the
outcome of `get_cluster_info` (its SageMaker instance groups as name → type
pairs), `kubeconfig` the outcome of `setup_kubeconfig`; both run before the
request-type dispatch.  One `cfnresponse.send` per returned list element. -/
def lambda_handler (requestType : Option String) (env : Env)
    (clusterInfo : Except String (List (String × String)))
    (kubeconfig : Except String Unit) (w : KVWorld) : List CfnSend :=
  let r : Except String (Option String × String) := do
    let rt ← match requestType with
      | some rt => Except.ok rt
      | none => Except.error "'RequestType'"
    let _ ← match env.hyperpodClusterName with
      | some v => Except.ok v
      | none => Except.error "HYPERPOD_CLUSTER_NAME environment variable is required"
    let _ ← match env.clusterName with
      | some v => Except.ok v
      | none => Except.error "CLUSTER_NAME environment variable is required"
    let _ ← match env.region with
      | some v => Except.ok v
      | none => Except.error "REGION environment variable is required"
    let groups ← clusterInfo
    let _ ← kubeconfig
    if rt = "Create" then
      Except.ok (none, (configure_kv_cache groups w).1.reason)
    else if rt = "Update" then
      Except.ok (none, (configure_kv_cache groups w).1.reason)
    else if rt = "Delete" then
      Except.ok (some "SUCCESS", "KV cache configuration cleanup not required")
    else
      Except.error ("Invalid request type: " ++ rt)
  match r with
  | .ok rd => [⟨"SUCCESS", rd.1, some rd.2, none⟩]
  | .error e =>
      [⟨"FAILED", some "FAILED", some ("Lambda completed with errors: " ++ e), none⟩]

end TieredCache

namespace ClusterPolicy

/-- A `Weight` value inside a priority class: a JSON int or string. -/
inductive PyWeight
  | int (n : Int)
  | str (s : String)
deriving DecidableEq, Repr

/-- One entry of `SchedulerConfig['PriorityClasses']` (only its optional
`Weight` key is relevant to the handler's own logic). -/
structure PriorityEntry where
  weight : Option PyWeight
deriving DecidableEq, Repr

/-- The `SchedulerConfig` resource property (its `PriorityClasses` key, when
present). -/
structure SchedConfig where
  priorityEntries : Option (List PriorityEntry)
deriving DecidableEq, Repr

/-- The `ResourceProperties` keys the handler reads (`none` = key absent,
which raises `KeyError` for the required ones). -/
structure Props where
  clusterArn : Option String
  schedulerConfig : Option SchedConfig
  name : Option String
  description : Option String
deriving DecidableEq, Repr

/-- The inbound CloudFormation event. -/
structure Event where
  requestType : Option String
  physicalResourceId : Option String
  resourceProperties : Option Props
deriving DecidableEq, Repr

/-- Outcomes of the SageMaker API calls: create returns
`(ClusterSchedulerConfigArn, ClusterSchedulerConfigId)`, update returns the
arn, delete returns nothing. -/
structure Remote where
  createResult : Except String (String × String)
  updateResult : Except String String
  deleteResult : Except String Unit
deriving DecidableEq, Repr

/-- The per-entry `Weight` conversion: a string weight is converted with
Python `int(...)` (an unparsable string raises `ValueError`). -/
def convertWeight (e : PriorityEntry) : Except String PriorityEntry :=
  match e.weight with
  | some (.str s) =>
      match s.toInt? with
      | some n => .ok ⟨some (.int n)⟩
      | none => .error ("invalid literal for int() with base 10: " ++ s)
  | _ => .ok e

/-- The `PriorityClasses` weight-conversion loop (skipped when the key is
absent). -/
def convertWeights (sc : SchedConfig) : Except String SchedConfig :=
  match sc.priorityEntries with
  | none => .ok sc
  | some es => do
      let es' ← es.mapM convertWeight
      .ok ⟨some es'⟩

/-- The field extractions the handler performs after reading `RequestType`
and `PhysicalResourceId`: `ResourceProperties`, `ClusterArn`,
`SchedulerConfig`, the weight conversion, and `Name` (`Description` has a
default and cannot fail). -/
def extractInputs (ev : Event) : Except String Unit := do
  let props ← match ev.resourceProperties with
    | some p => Except.ok p
    | none => Except.error "'ResourceProperties'"
  let _ ← match props.clusterArn with
    | some v => Except.ok v
    | none => Except.error "'ClusterArn'"
  let sc ← match props.schedulerConfig with
    | some v => Except.ok v
    | none => Except.error "'SchedulerConfig'"
  let _ ← convertWeights sc
  let _ ← match props.name with
    | some v => Except.ok v
    | none => Except.error "'Name'"
  Except.ok ()

/-- The cluster-policy `handler(event, context)`.  Notable control-flow facts
mirrored from the source: a missing `RequestType` raises before `physical_id`
is assigned, so the `except` block's own `cfnresponse.send(..., physical_id)`
raises `NameError` and nothing is sent; the `if request_type ...` chain has
no `else` branch, so an unrecognised request type falls through the function
body without any `cfnresponse.send`; Delete errors are swallowed and Delete
always acknowledges SUCCESS. -/
def handler (ev : Event) (remote : Remote) : List CfnSend :=
  match ev.requestType with
  | none => []
  | some request_type =>
    let physical_id := ev.physicalResourceId
    match extractInputs ev with
    | .error _ => [⟨"FAILED", none, none, physical_id⟩]
    | .ok _ =>
      if request_type = "Create" then
        match remote.createResult with
        | .ok r => [⟨"SUCCESS", none, none, some r.2⟩]
        | .error _ => [⟨"FAILED", none, none, physical_id⟩]
      else if request_type = "Update" then
        match physical_id with
        | some pid =>
            match remote.updateResult with
            | .ok _ => [⟨"SUCCESS", none, none, some pid⟩]
            | .error _ => [⟨"FAILED", none, none, some pid⟩]
        | none => [⟨"FAILED", none, none, none⟩]
      else if request_type = "Delete" then
        [⟨"SUCCESS", none, none, physical_id⟩]
      else
        []

end ClusterPolicy

namespace CertManager

/-- The response dict fields of the cert-manager handler routines. -/
structure RespData where
  status : String
  reason : String
  certManagerInstalled : Option Bool := none
  certManagerExists : Option Bool := none
  certManagerUninstalled : Option Bool := none
deriving DecidableEq, Repr

/-- The cluster mutations the cert-manager handler can issue. -/
inductive Effect
  | helmInstall
  | helmUpgrade
  | helmUninstall
  | deleteNamespace
deriving DecidableEq, Repr

/-- Remote cluster state the create path observes and mutates. -/
structure Remote where
  certManagerReady : Bool
deriving DecidableEq, Repr

/-- `check_cert_manager_exists()`: the kubectl probe for cert-manager
deployments with ready replicas; probe failures are observed as `False` (the
code returns `False` on error). -/
def check_cert_manager_exists (r : Remote) : Bool := r.certManagerReady

/-- Environment and subprocess outcomes of the create path. -/
structure CreateWorld where
  eksEnvPresent : Bool
  repoEnvPresent : Bool
  kubeconfigOk : Bool
  gitStepsOk : Bool
  namespaceOk : Bool
  helmInstallOk : Bool
  readyWaitOk : Bool
deriving DecidableEq, Repr

/-- `install_cert_manager()`: clone the chart repo, create the namespace,
`helm install` with only cert-manager enabled, wait for readiness.  Returns
the new remote state on success; the effect list records the successfully
issued mutations (a `helm install` that succeeds installs the release even if
the subsequent readiness wait fails). -/
def install_cert_manager (w : CreateWorld) (r : Remote) :
    (Except String Remote) × List Effect :=
  if ¬ w.repoEnvPresent then
    (.error "Missing required environment variable", [])
  else if ¬ w.gitStepsOk then
    (.error "Failed to install cert-manager via HyperPod Helm Chart", [])
  else if ¬ w.namespaceOk then
    (.error "Failed to create namespace", [])
  else if ¬ w.helmInstallOk then
    (.error "Failed to install cert-manager via HyperPod Helm Chart", [])
  else if ¬ w.readyWaitOk then
    (.error "cert-manager deployments failed to become ready", [Effect.helmInstall])
  else
    (.ok { r with certManagerReady := true }, [Effect.helmInstall])

/-- `on_create()`: validate the environment, write the kubeconfig, probe for
an existing cert-manager and either skip (already exists) or install.  Errors
are re-raised wrapped in `Failed to handle cert-manager`. -/
def on_create (w : CreateWorld) (r : Remote) :
    (Except String RespData) × Remote × List Effect :=
  if ¬ w.eksEnvPresent then
    (.error "Failed to handle cert-manager: Missing required environment variable", r, [])
  else if ¬ w.kubeconfigOk then
    (.error "Failed to handle cert-manager: failed to get cluster info", r, [])
  else if check_cert_manager_exists r then
    (.ok { status := "SUCCESS"
         , reason := "cert-manager already exists, skipped installation"
         , certManagerInstalled := some false
         , certManagerExists := some true }, r, [])
  else
    match install_cert_manager w r with
    | (.ok r', fx) =>
        (.ok { status := "SUCCESS"
             , reason := "cert-manager installed successfully via HyperPod Helm Chart"
             , certManagerInstalled := some true
             , certManagerExists := some false }, r', fx)
    | (.error e, fx) =>
        (.error ("Failed to handle cert-manager: " ++ e), r, fx)

/-- A subprocess failure: `CalledProcessError` (caught by the delete path's
inner handler) versus any other exception. -/
inductive SubErr
  | calledProcess (msg : String)
  | other (msg : String)
deriving DecidableEq, Repr

/-- Environment and subprocess outcomes of the delete path. -/
structure DeleteWorld where
  envPresent : Bool
  kubeconfigOk : Bool
  helmList : Except SubErr (List String)
  uninstall : Except SubErr Unit
  namespaceEmpty : Except SubErr Bool
  namespaceDeleteOk : Except SubErr Unit
  cleanupOk : Bool
deriving DecidableEq, Repr

/-- `on_delete()`: missing environment variables or a kubeconfig failure
return the success dict immediately; the helm uninstall block catches
`CalledProcessError` with a warning; any other exception reaches the outer
catch-all, which still returns SUCCESS (`Proceeding with deletion despite
error`).  The effect list records the successfully issued mutations. -/
def on_delete (w : DeleteWorld) : RespData × List Effect :=
  let response_data : RespData :=
    { status := "SUCCESS", reason := "cert-manager uninstall completed successfully" }
  if ¬ w.envPresent then (response_data, [])
  else if ¬ w.kubeconfigOk then (response_data, [])
  else
    let inner : Except String (List Effect) :=
      match w.helmList with
      | .error (.calledProcess _) => .ok []
      | .error (.other e) => .error e
      | .ok releases =>
        if "cert-manager" ∈ releases then
          match w.uninstall with
          | .error (.calledProcess _) => .ok []
          | .error (.other e) => .error e
          | .ok _ =>
            match w.namespaceEmpty with
            | .error (.calledProcess _) => .ok [Effect.helmUninstall]
            | .error (.other e) => .error e
            | .ok true =>
              match w.namespaceDeleteOk with
              | .ok _ => .ok [Effect.helmUninstall, Effect.deleteNamespace]
              | .error (.calledProcess _) => .ok [Effect.helmUninstall]
              | .error (.other e) => .error e
            | .ok false => .ok [Effect.helmUninstall]
        else
          .ok []
    match inner with
    | .ok fx => ({ response_data with certManagerUninstalled := some true }, fx)
    | .error e =>
        ({ status := "SUCCESS"
         , reason := "Proceeding with deletion despite error: " ++ e }, [])

/-- The cert-manager `lambda_handler(event, context)`: dispatch on
`RequestType` (an unrecognised one raises `ValueError`, a missing one
`KeyError`), send SUCCESS with the routine's dict, or FAILED with the error
message from the catch-all.  The delete routine never raises (its own
catch-all), hence its plain `RespData` parameter. -/
def lambda_handler (requestType : Option String)
    (onCreate onUpdate : Except String RespData) (onDelete : RespData) :
    List CfnSend :=
  let r : Except String RespData := do
    let rt ← match requestType with
      | some rt => Except.ok rt
      | none => Except.error "'RequestType'"
    if rt = "Create" then onCreate
    else if rt = "Update" then onUpdate
    else if rt = "Delete" then Except.ok onDelete
    else Except.error ("Invalid request type: " ++ rt)
  match r with
  | .ok rd => [⟨"SUCCESS", some rd.status, some rd.reason, none⟩]
  | .error e => [⟨"FAILED", some "FAILED", some e, none⟩]

end CertManager

namespace Hpto

/-- The response dict fields of the HPTO handler routines. -/
structure Resp where
  status : String
  reason : String
  hptoUninstalled : Option Bool := none
deriving DecidableEq, Repr

/-- An AWS API failure: `ResourceNotFoundException`, another `ClientError`,
or any other exception. -/
inductive AwsErr
  | resourceNotFound
  | clientError (msg : String)
  | other (msg : String)
deriving DecidableEq, Repr

/-- The EKS add-on state the HPTO handler observes and mutates. -/
structure AddonState where
  addon : Option (String × String)
deriving DecidableEq, Repr

/-- The EKS mutations the HPTO handler can issue. -/
inductive Effect
  | createAddon
  | deleteAddon
deriving DecidableEq, Repr

/-- `get_addon_status(eks_client, cluster_name)`: `describe_addon`, with
`ResourceNotFoundException` translated to `(None, None)`. -/
def get_addon_status (s : AddonState) : Option (String × String) := s.addon

/-- Terminal add-on states of `wait_for_addon_terminal_state`:
`ACTIVE`, `CREATE_FAILED`, `DEGRADED`. -/
def isTerminalStatus (status : String) : Bool :=
  status = "ACTIVE" || status = "CREATE_FAILED" || status = "DEGRADED"

/-- The polling loop of `wait_for_addon_terminal_state(eks_client, cluster_name,
max_wait_time)`, over an abstract clock: `statusAt t` is the add-on status
`describe_addon` observes at elapsed time `t`, and each iteration sleeps 30 s.
Returns the status the source returns (its `addon_arn` component is elided)
paired with the model clock at the moment of return. -/
def wait_for_addon_terminal_state_from (statusAt : Nat → String)
    (max_wait_time elapsed : Nat) : String × Nat :=
  if elapsed < max_wait_time then
    let status := statusAt elapsed
    if isTerminalStatus status then (status, elapsed)
    else wait_for_addon_terminal_state_from statusAt max_wait_time (elapsed + 30)
  else
    (statusAt elapsed, elapsed)
termination_by max_wait_time - elapsed
decreasing_by simp_wf; omega

/-- `wait_for_addon_terminal_state`, the loop started at elapsed time 0
(`start_time = time.time()`). -/
def wait_for_addon_terminal_state (statusAt : Nat → String) (max_wait_time : Nat) :
    String × Nat :=
  wait_for_addon_terminal_state_from statusAt max_wait_time 0

/-- `install_hpto_addon(cluster_name)`: probe with `get_addon_status` and
return the existing add-on's `(arn, status)` without creating when it already
exists; otherwise `create_addon` and wait for a terminal state.  `createdArn`
is the arn returned by the create call, `statusAt` the post-create status
observations, `createOk` whether `create_addon` succeeds.  The effect list
records the create calls issued. -/
def install_hpto_addon (s : AddonState) (createOk : Bool) (createdArn : String)
    (statusAt : Nat → String) :
    (Except String (String × String)) × AddonState × List Effect :=
  match get_addon_status s with
  | some (arn, status) => (.ok (arn, status), s, [])
  | none =>
      if createOk then
        let waited := wait_for_addon_terminal_state statusAt 300
        (.ok (createdArn, waited.1),
         { addon := some (createdArn, waited.1) }, [Effect.createAddon])
      else
        (.error "Error installing HPTO add-on", s, [])

/-- Outcome of the delete path's post-delete polling loop. -/
inductive WaitDeleteOutcome
  | finished
  | clientErr (msg : String)
  | otherErr (msg : String)
deriving DecidableEq, Repr

/-- The delete path's wait loop: poll `describe_addon` every 10 s for up to
300 s; `ResourceNotFoundException` means the add-on is gone (break); any
other `ClientError` is re-raised to the enclosing `except ClientError`
handler; other exceptions escape to the outer catch-all; running out the
clock simply ends the loop. -/
def wait_for_addon_deleted (describeAt : Nat → Except AwsErr Unit)
    (max_wait elapsed : Nat) : WaitDeleteOutcome :=
  if elapsed < max_wait then
    match describeAt elapsed with
    | .ok _ => wait_for_addon_deleted describeAt max_wait (elapsed + 10)
    | .error .resourceNotFound => .finished
    | .error (.clientError m) => .clientErr m
    | .error (.other m) => .otherErr m
  else
    .finished
termination_by max_wait - elapsed
decreasing_by simp_wf; omega

/-- Environment and API outcomes of the HPTO delete path. -/
structure DeleteWorld where
  clusterName : Option String
  deleteAddonResult : Except AwsErr Unit
  describeAt : Nat → Except AwsErr Unit

/-- `on_delete()`: a missing cluster name skips cleanup with the success
dict; `delete_addon`'s `ResourceNotFoundException` (add-on never existed) and
other `ClientError`s are caught and logged; only non-`ClientError`
exceptions reach the outer catch-all — which still returns SUCCESS
(`Proceeding with deletion despite error`). -/
def on_delete (w : DeleteWorld) : Resp :=
  let response_data : Resp :=
    { status := "SUCCESS", reason := "HPTO add-on uninstall completed" }
  match w.clusterName with
  | none => response_data
  | some _ =>
    match w.deleteAddonResult with
    | .ok _ =>
        match wait_for_addon_deleted w.describeAt 300 0 with
        | .otherErr m =>
            { status := "SUCCESS"
            , reason := "Proceeding with deletion despite error: " ++ m }
        | _ => { response_data with hptoUninstalled := some true }
    | .error .resourceNotFound =>
        { response_data with hptoUninstalled := some true }
    | .error (.clientError _) =>
        { response_data with hptoUninstalled := some true }
    | .error (.other m) =>
        { status := "SUCCESS"
        , reason := "Proceeding with deletion despite error: " ++ m }

end Hpto

namespace DataScientist

/-- The response dict fields of the data-scientist-setup routines. -/
structure Resp where
  status : String
  reason : String
deriving DecidableEq, Repr

/-- `on_update()`: `raise NotImplementedError` — every Update raises, and
`str()` of the bare `NotImplementedError` is the empty string. -/
def on_update : Except String Resp := .error ""

/-- The data-scientist-setup `lambda_handler(event, context)`.  Its
catch-all deliberately acknowledges with CloudFormation status SUCCESS (the
source comments: "Always return success to prevent rollback on failures"),
carrying a data payload with `Status: FAILED` and a prefixed reason. -/
def lambda_handler (requestType : Option String)
    (onCreate onUpdate onDelete : Except String Resp) : List CfnSend :=
  let r : Except String Resp := do
    let rt ← match requestType with
      | some rt => Except.ok rt
      | none => Except.error "'RequestType'"
    if rt = "Create" then onCreate
    else if rt = "Update" then onUpdate
    else if rt = "Delete" then onDelete
    else Except.error ("Invalid request type: " ++ rt)
  match r with
  | .ok rd => [⟨"SUCCESS", some rd.status, some rd.reason, none⟩]
  | .error e =>
      [⟨"SUCCESS", some "FAILED", some ("Lambda completed with errors: " ++ e), none⟩]

end DataScientist

namespace Observability

/-- The response dict fields of the observability-stack routines. -/
structure Resp where
  status : String
  reason : String
  stackId : Option String := none
deriving DecidableEq, Repr

/-- `on_update()`: the function takes no parameters yet its body reads the
free name `event` (`props = event.get('ResourceProperties', {})`); no
module-level `event` exists, so every call raises
`NameError("name 'event' is not defined")`, which the function's own
`except` re-raises. -/
def on_update : Except String Resp := .error "name 'event' is not defined"

/-- The observability-stack `lambda_handler(event, context)`. -/
def lambda_handler (requestType : Option String)
    (onCreate onDelete : Except String Resp) : List CfnSend :=
  let r : Except String Resp := do
    let rt ← match requestType with
      | some rt => Except.ok rt
      | none => Except.error "'RequestType'"
    if rt = "Create" then onCreate
    else if rt = "Update" then on_update
    else if rt = "Delete" then onDelete
    else Except.error ("Invalid request type: " ++ rt)
  match r with
  | .ok rd => [⟨"SUCCESS", some rd.status, some rd.reason, none⟩]
  | .error e => [⟨"FAILED", some "FAILED", some e, none⟩]

end Observability

namespace ClusterCreator

/-- Modelled from the spec: the implementation of
`get_tiered_storage_config_from_env` (hyperpod-cluster-creator lambda) is not
under the source tree — only its unit tests are
(`__tests__/test_tiered_storage_config.py`).  Per the spec's numeric policy and
those tests, the `InstanceMemoryAllocationPercentage` field must be an integer
(floats are rejected) with 0 and 100 valid, negative values and values over
100 invalid.  This predicate is that validator's acceptance condition on an
integer percentage. -/
def percentage_valid (n : Int) : Bool := decide (0 ≤ n) && decide (n ≤ 100)

end ClusterCreator

/-!  Theorems.  First the bridging lemmas for `PyFloat` comparisons, then the
loop invariants of the two polling loops, then one theorem per claim. -/

theorem PyFloat.le_iff {a b : PyFloat} (ha : a.WF) (hb : b.WF) :
    a.le b = true ↔ a.toRat ≤ b.toRat := by
  have ha' : (0 : ℚ) < (a.den : ℚ) := by exact_mod_cast ha
  have hb' : (0 : ℚ) < (b.den : ℚ) := by exact_mod_cast hb
  rw [PyFloat.le, PyFloat.toRat, PyFloat.toRat, div_le_div_iff₀ ha' hb',
    decide_eq_true_eq]
  constructor
  · intro h; exact_mod_cast h
  · intro h; exact_mod_cast h

theorem PyFloat.lt_iff {a b : PyFloat} (ha : a.WF) (hb : b.WF) :
    a.lt b = true ↔ a.toRat < b.toRat := by
  have ha' : (0 : ℚ) < (a.den : ℚ) := by exact_mod_cast ha
  have hb' : (0 : ℚ) < (b.den : ℚ) := by exact_mod_cast hb
  rw [PyFloat.lt, PyFloat.toRat, PyFloat.toRat, div_lt_div_iff₀ ha' hb',
    decide_eq_true_eq]
  constructor
  · intro h; exact_mod_cast h
  · intro h; exact_mod_cast h

theorem PyFloat.ofInt_toRat (n : Int) : (PyFloat.ofInt n).toRat = (n : ℚ) := by
  simp [PyFloat.ofInt, PyFloat.toRat]

/-- C1 counterexample: the cluster-policy handler, on an event whose
`RequestType` is the unrecognised value `Read` (all required properties
present), publishes no acknowledgment at all: its dispatch chain has no
`else` branch, so the function falls through without any `cfnresponse.send`. -/
theorem C1_counterexample_unrecognized_type_sends_nothing :
    ClusterPolicy.handler
      { requestType := some "Read"
      , physicalResourceId := some "config-id-1"
      , resourceProperties := some
          { clusterArn := some "arn:aws:sagemaker:us-west-2:111122223333:cluster/abc"
          , schedulerConfig := some { priorityEntries := none }
          , name := some "my-config"
          , description := none } }
      { createResult := .ok ("arn", "id"), updateResult := .ok "arn"
      , deleteResult := .ok () } = [] := by decide

/-- C1 (amended): the cert-manager `lambda_handler` publishes exactly one
acknowledgment for every lifecycle event — Create, Update, Delete, any
unrecognised `RequestType`, and even a missing one; the cluster-policy
`handler` publishes exactly one for Create, Update and Delete events
(whether extraction and the remote calls succeed or fail), but publishes
none for an unrecognised `RequestType` (no `else` branch) and none for a
missing `RequestType` (the `except` block itself raises `NameError`). -/
theorem C1_exactly_one_send :
    (∀ (requestType : Option String)
        (onCreate onUpdate : Except String CertManager.RespData)
        (onDelete : CertManager.RespData),
        (CertManager.lambda_handler requestType onCreate onUpdate onDelete).length = 1) ∧
    (∀ (ev : ClusterPolicy.Event) (remote : ClusterPolicy.Remote),
        (ev.requestType = some "Create" ∨ ev.requestType = some "Update" ∨
         ev.requestType = some "Delete") →
        (ClusterPolicy.handler ev remote).length = 1) := by
  constructor
  · intro requestType onCreate onUpdate onDelete
    rcases requestType with _ | rt
    · rfl
    · by_cases h1 : rt = "Create"
      · cases onCreate <;> simp [CertManager.lambda_handler, h1, bind, Except.bind]
      · by_cases h2 : rt = "Update"
        · cases onUpdate <;> simp [CertManager.lambda_handler, h1, h2, bind, Except.bind]
        · by_cases h3 : rt = "Delete"
          · simp [CertManager.lambda_handler, h1, h2, h3, bind, Except.bind]
          · simp [CertManager.lambda_handler, h1, h2, h3, bind, Except.bind]
  · intro ev remote h
    rcases ev with ⟨rt, pid, props⟩
    rcases h with h | h | h <;> simp only at h <;> subst h <;>
      simp only [ClusterPolicy.handler]
    · cases hx : ClusterPolicy.extractInputs ⟨some "Create", pid, props⟩ with
      | error e => simp
      | ok u =>
          simp only
          cases remote.createResult <;> simp
    · cases hx : ClusterPolicy.extractInputs ⟨some "Update", pid, props⟩ with
      | error e => simp
      | ok u =>
          simp only
          cases pid <;> cases hr : remote.updateResult <;> simp
    · cases hx : ClusterPolicy.extractInputs ⟨some "Delete", pid, props⟩ with
      | error e => simp
      | ok u => simp

/-- C1 witness: one acknowledgment for a concrete unrecognised-type event to
the cert-manager handler and for a concrete Delete event to the
cluster-policy handler. -/
theorem C1_exactly_one_send_witness :
    (CertManager.lambda_handler (some "Bogus")
        (.ok { status := "SUCCESS", reason := "r" })
        (.ok { status := "SUCCESS", reason := "r" })
        { status := "SUCCESS", reason := "r" }).length = 1 ∧
    (ClusterPolicy.handler
        { requestType := some "Delete", physicalResourceId := some "id-1"
        , resourceProperties := some
            { clusterArn := some "arn", schedulerConfig := some ⟨none⟩
            , name := some "n", description := none } }
        { createResult := .ok ("a", "b"), updateResult := .ok "a"
        , deleteResult := .ok () }).length = 1 :=
  ⟨C1_exactly_one_send.1 _ _ _ _,
   C1_exactly_one_send.2 _ _ (Or.inr (Or.inr rfl))⟩

/-- C2 counterexample: a Delete event to the tiered-cache handler when
credential resolution fails (`get_cluster_info` raises because the backing
cluster is already gone) publishes Status FAILED, not SUCCESS: that handler
runs `get_cluster_info` and `setup_kubeconfig` before the request-type
dispatch, and its catch-all sends FAILED for every request type. -/
theorem C2_counterexample_delete_credential_failure_FAILED :
    TieredCache.lambda_handler (some "Delete")
      { hyperpodClusterName := some "hp-cluster", clusterName := some "eks-cluster"
      , region := some "us-west-2" }
      (.error "Failed to get EKS cluster info for 'eks-cluster': cluster not found")
      (.ok ())
      { kvCacheConfig := none, storageConfig := none
      , bufferGib := PyFloat.ofInt 1, testing := false
      , getConfigMapOk := .ok (), configMapChanged := false
      , applyConfigMapOk := .ok (), getDaemonsetOk := .ok ()
      , patchDaemonsetOk := .ok (), deletePodsOk := .ok ()
      , dsReadyAt := fun _ => true } =
    [⟨"FAILED", some "FAILED",
      some "Lambda completed with errors: Failed to get EKS cluster info for 'eks-cluster': cluster not found",
      none⟩] := by rfl

/-- C2 (amended): the delete routines themselves suppress every internal
error — `on_delete` of the cert-manager handler and of the HPTO handler
always return Status SUCCESS, whatever the environment and every remote
outcome — but in the tiered-cache handler the pre-dispatch steps (environment
validation, `get_cluster_info`, `setup_kubeconfig`) are not covered by that
asymmetry: a credential-resolution failure there publishes FAILED even for a
Delete event. -/
theorem C2_delete_error_suppression :
    (∀ w : CertManager.DeleteWorld, (CertManager.on_delete w).1.status = "SUCCESS") ∧
    (∀ w : Hpto.DeleteWorld, (Hpto.on_delete w).status = "SUCCESS") ∧
    (∀ (env : TieredCache.Env) (e : String) (kubeconfig : Except String Unit)
        (w : TieredCache.KVWorld),
        env.hyperpodClusterName.isSome → env.clusterName.isSome →
        env.region.isSome →
        TieredCache.lambda_handler (some "Delete") env (.error e) kubeconfig w =
          [⟨"FAILED", some "FAILED",
            some ("Lambda completed with errors: " ++ e), none⟩]) := by
  refine ⟨?_, ?_, ?_⟩
  · intro w
    unfold CertManager.on_delete
    dsimp only
    split
    · rfl
    split
    · rfl
    split <;> rfl
  · intro w
    unfold Hpto.on_delete
    dsimp only
    split
    · rfl
    split
    · split <;> rfl
    · rfl
    · rfl
    · rfl
  · intro env e kubeconfig w h1 h2 h3
    rcases env with ⟨hp, cn, rg⟩
    rcases hp with _ | hp
    · simp at h1
    rcases cn with _ | cn
    · simp at h2
    rcases rg with _ | rg
    · simp at h3
    rfl

/-- C2 witness: concrete instances — an all-failing cert-manager delete
world, an HPTO delete world whose every call errors, and the concrete FAILED
Delete acknowledgment of the tiered-cache handler. -/
theorem C2_delete_error_suppression_witness :
    (CertManager.on_delete
        { envPresent := true, kubeconfigOk := true
        , helmList := .error (.other "boom"), uninstall := .error (.other "boom")
        , namespaceEmpty := .error (.other "boom")
        , namespaceDeleteOk := .error (.other "boom"), cleanupOk := false }).1.status
      = "SUCCESS" ∧
    (Hpto.on_delete
        { clusterName := some "c", deleteAddonResult := .error (.other "gone")
        , describeAt := fun _ => .error (.other "gone") }).status = "SUCCESS" ∧
    TieredCache.lambda_handler (some "Delete")
      { hyperpodClusterName := some "hp", clusterName := some "eks"
      , region := some "r" }
      (.error "no credentials") (.ok ())
      { kvCacheConfig := none, storageConfig := none
      , bufferGib := PyFloat.ofInt 1, testing := false
      , getConfigMapOk := .ok (), configMapChanged := false
      , applyConfigMapOk := .ok (), getDaemonsetOk := .ok ()
      , patchDaemonsetOk := .ok (), deletePodsOk := .ok ()
      , dsReadyAt := fun _ => true } =
      [⟨"FAILED", some "FAILED",
        some ("Lambda completed with errors: " ++ "no credentials"), none⟩] :=
  ⟨C2_delete_error_suppression.1 _,
   C2_delete_error_suppression.2.1 _,
   C2_delete_error_suppression.2.2 _ _ _ _ (by simp) (by simp) (by simp)⟩

/-- C3 counterexample: an Update event to the data-scientist-setup handler
always hits an uncaught `NotImplementedError`, yet the published
acknowledgment has CloudFormation status SUCCESS (not FAILED) and its Reason
is the prefixed `Lambda completed with errors: ` string, not the bare error
message. -/
theorem C3_counterexample_ds_error_acknowledged_SUCCESS :
    DataScientist.lambda_handler (some "Update")
      (.ok { status := "SUCCESS", reason := "Data scientist setup completed successfully" })
      DataScientist.on_update
      (.ok { status := "SUCCESS", reason := "cleanup" }) =
    [⟨"SUCCESS", some "FAILED", some "Lambda completed with errors: ", none⟩] := by rfl

/-- C3 (amended): on an uncaught internal error during Create or Update, the
cert-manager handler publishes FAILED with the error message as Reason; the
data-scientist-setup handler instead deliberately publishes CloudFormation
status SUCCESS carrying a data payload with `Status: FAILED` and the reason
`Lambda completed with errors: <message>`, to prevent rollback. -/
theorem C3_create_update_error_reporting :
    (∀ (e : String) (onUpdate : Except String CertManager.RespData)
        (onDelete : CertManager.RespData),
        CertManager.lambda_handler (some "Create") (.error e) onUpdate onDelete =
          [⟨"FAILED", some "FAILED", some e, none⟩]) ∧
    (∀ (e : String) (onCreate : Except String CertManager.RespData)
        (onDelete : CertManager.RespData),
        CertManager.lambda_handler (some "Update") onCreate (.error e) onDelete =
          [⟨"FAILED", some "FAILED", some e, none⟩]) ∧
    (∀ (e : String) (onCreate onDelete : Except String DataScientist.Resp),
        DataScientist.lambda_handler (some "Update") onCreate (.error e) onDelete =
          [⟨"SUCCESS", some "FAILED",
            some ("Lambda completed with errors: " ++ e), none⟩]) := by
  refine ⟨fun e onUpdate onDelete => rfl, fun e onCreate onDelete => rfl,
    fun e onCreate onDelete => rfl⟩

/-- C4: idempotent create.  In a well-formed environment (all required
variables set, kubeconfig and install steps succeeding) on a cluster without
cert-manager, the first Create installs exactly once and reports SUCCESS; a
second identical invocation finds cert-manager present, reports SUCCESS
again (`already exists, skipped installation`), issues no further install,
and leaves the remote state unchanged.  Likewise `install_hpto_addon` on a
cluster where the add-on already exists returns its existing (arn, status)
without issuing any `create_addon`. -/
theorem C4_create_idempotent :
    (∀ (w : CertManager.CreateWorld) (r : CertManager.Remote),
        w.eksEnvPresent → w.repoEnvPresent → w.kubeconfigOk → w.gitStepsOk →
        w.namespaceOk → w.helmInstallOk → w.readyWaitOk →
        r.certManagerReady = false →
        CertManager.on_create w r =
          (.ok { status := "SUCCESS"
               , reason := "cert-manager installed successfully via HyperPod Helm Chart"
               , certManagerInstalled := some true
               , certManagerExists := some false }
          , { certManagerReady := true }, [CertManager.Effect.helmInstall]) ∧
        CertManager.on_create w { certManagerReady := true } =
          (.ok { status := "SUCCESS"
               , reason := "cert-manager already exists, skipped installation"
               , certManagerInstalled := some false
               , certManagerExists := some true }
          , { certManagerReady := true }, [])) ∧
    (∀ (s : Hpto.AddonState) (arn status : String) (createOk : Bool)
        (createdArn : String) (statusAt : Nat → String),
        s.addon = some (arn, status) →
        Hpto.install_hpto_addon s createOk createdArn statusAt =
          (.ok (arn, status), s, [])) := by
  constructor
  · intro w r h1 h2 h3 h4 h5 h6 h7 hr
    rcases w with ⟨e1, e2, e3, e4, e5, e6, e7⟩
    simp only at h1 h2 h3 h4 h5 h6 h7
    subst h1; subst h2; subst h3; subst h4; subst h5; subst h6; subst h7
    rcases r with ⟨ready⟩
    simp only at hr
    subst hr
    constructor <;> rfl
  · intro s arn status createOk createdArn statusAt hs
    unfold Hpto.install_hpto_addon Hpto.get_addon_status
    rw [hs]

/-- C4 witness: the concrete double invocation in the all-succeeding world,
and the concrete existing-add-on install. -/
theorem C4_create_idempotent_witness :
    (CertManager.on_create
        { eksEnvPresent := true, repoEnvPresent := true, kubeconfigOk := true
        , gitStepsOk := true, namespaceOk := true, helmInstallOk := true
        , readyWaitOk := true } { certManagerReady := false } =
      (.ok { status := "SUCCESS"
           , reason := "cert-manager installed successfully via HyperPod Helm Chart"
           , certManagerInstalled := some true
           , certManagerExists := some false }
      , { certManagerReady := true }, [CertManager.Effect.helmInstall]) ∧
     CertManager.on_create
        { eksEnvPresent := true, repoEnvPresent := true, kubeconfigOk := true
        , gitStepsOk := true, namespaceOk := true, helmInstallOk := true
        , readyWaitOk := true } { certManagerReady := true } =
      (.ok { status := "SUCCESS"
           , reason := "cert-manager already exists, skipped installation"
           , certManagerInstalled := some false
           , certManagerExists := some true }
      , { certManagerReady := true }, [])) ∧
    Hpto.install_hpto_addon { addon := some ("addon-arn", "ACTIVE") } true "new-arn"
        (fun _ => "CREATING") = (.ok ("addon-arn", "ACTIVE"), { addon := some ("addon-arn", "ACTIVE") }, []) :=
  ⟨C4_create_idempotent.1 _ _ rfl rfl rfl rfl rfl rfl rfl rfl,
   C4_create_idempotent.2 _ "addon-arn" "ACTIVE" true "new-arn" _ rfl⟩

/-- C5 counterexample: the claim says the published result of a Delete whose
target never existed carries a reason indicating nothing needed to be done.
It does not: on concrete never-existed inputs, the HPTO handler publishes the
Reason `HPTO add-on uninstall completed` and the cert-manager handler
publishes `cert-manager uninstall completed successfully` — generic
completion messages containing none of the nothing-to-do phrasings the
handlers themselves use in their logs for this case (`not found`, `nothing`,
`skip`, `already`). -/
theorem C5_counterexample_generic_completion_reason :
    (Hpto.on_delete
        { clusterName := some "cluster-1"
        , deleteAddonResult := .error .resourceNotFound
        , describeAt := fun _ => .ok () }).reason =
      "HPTO add-on uninstall completed" ∧
    strContains "HPTO add-on uninstall completed" "not found" = false ∧
    strContains "HPTO add-on uninstall completed" "nothing" = false ∧
    strContains "HPTO add-on uninstall completed" "skip" = false ∧
    strContains "HPTO add-on uninstall completed" "already" = false ∧
    (CertManager.on_delete
        { envPresent := true, kubeconfigOk := true, helmList := .ok []
        , uninstall := .ok (), namespaceEmpty := .ok true
        , namespaceDeleteOk := .ok (), cleanupOk := true }).1.reason =
      "cert-manager uninstall completed successfully" ∧
    strContains "cert-manager uninstall completed successfully" "not found" = false ∧
    strContains "cert-manager uninstall completed successfully" "nothing" = false ∧
    strContains "cert-manager uninstall completed successfully" "skip" = false ∧
    strContains "cert-manager uninstall completed successfully" "already" = false := by
  decide

/-- C5 (amended): a Delete whose target never existed publishes SUCCESS,
never FAILED — but with the handler's generic completion message as Reason,
the nothing-to-do detail appearing only in logs.  For the HPTO handler,
`delete_addon` raising `ResourceNotFoundException` is caught and the success
dict (`HPTO add-on uninstall completed`, `HptoUninstalled: True`) is
returned; for the cert-manager handler, a helm release list without
`cert-manager` skips the uninstall entirely and the success dict
(`cert-manager uninstall completed successfully`) is returned with no
mutation issued. -/
theorem C5_delete_absent_target_success :
    (∀ (w : Hpto.DeleteWorld) (cn : String),
        w.clusterName = some cn →
        w.deleteAddonResult = .error .resourceNotFound →
        Hpto.on_delete w =
          { status := "SUCCESS", reason := "HPTO add-on uninstall completed"
          , hptoUninstalled := some true }) ∧
    (∀ (w : CertManager.DeleteWorld) (releases : List String),
        w.envPresent → w.kubeconfigOk →
        w.helmList = .ok releases → "cert-manager" ∉ releases →
        CertManager.on_delete w =
          ({ status := "SUCCESS"
           , reason := "cert-manager uninstall completed successfully"
           , certManagerUninstalled := some true }, [])) := by
  constructor
  · intro w cn hcn hdel
    unfold Hpto.on_delete
    rw [hcn, hdel]
  · intro w releases h1 h2 hlist hmem
    rcases w with ⟨e1, e2, hl, un, ne, nd, cl⟩
    simp only at h1 h2 hlist
    subst h1; subst h2; subst hlist
    unfold CertManager.on_delete
    simp [hmem]

/-- C5 witness: the concrete never-existed Delete for both handlers. -/
theorem C5_delete_absent_target_success_witness :
    Hpto.on_delete
      { clusterName := some "c", deleteAddonResult := .error .resourceNotFound
      , describeAt := fun _ => .ok () } =
      { status := "SUCCESS", reason := "HPTO add-on uninstall completed"
      , hptoUninstalled := some true } ∧
    CertManager.on_delete
      { envPresent := true, kubeconfigOk := true, helmList := .ok ["other-release"]
      , uninstall := .ok (), namespaceEmpty := .ok true
      , namespaceDeleteOk := .ok (), cleanupOk := true } =
      ({ status := "SUCCESS"
       , reason := "cert-manager uninstall completed successfully"
       , certManagerUninstalled := some true }, []) :=
  ⟨C5_delete_absent_target_success.1 _ "c" rfl rfl,
   C5_delete_absent_target_success.2 _ ["other-release"] rfl rfl rfl (by decide)⟩

/-- C6 counterexample: the claim says a memory percentage of exactly 0 is
valid, but the tiered-cache memory-percentage validation
(`calculate_memory_allocation_and_cache_capacity`) rejects 0: its guard is
`percentage <= 0 or percentage > 100`. -/
theorem C6_counterexample_zero_is_rejected :
    TieredCache.calculate_memory_allocation_and_cache_capacity "ml.p5.48xlarge"
      (PyFloat.ofInt 0) (PyFloat.ofInt 1) false =
    .error "Invalid memory percentage value: Invalid percentage" := by decide

/-- C6 (amended): the tiered-cache memory-percentage validation accepts
exactly the inputs in the half-open interval (0, 100] — 100 is valid, while
0, negative values, and values greater than 100 are invalid; the separate
tiered-storage validation of the hyperpod-cluster-creator lambda (modelled
from the spec and its unit tests, its implementation being absent from the
source tree) accepts exactly the integers in the closed interval [0, 100]. -/
theorem C6_percentage_boundary_rules :
    (∀ p : PyFloat, p.WF →
        ((TieredCache.percentage_check p).isOk = true ↔
          (0 < p.toRat ∧ p.toRat ≤ 100))) ∧
    (∀ n : Int, ClusterCreator.percentage_valid n = true ↔ (0 ≤ n ∧ n ≤ 100)) := by
  constructor
  · intro p hp
    have wf0 : (PyFloat.ofInt 0).WF := by norm_num [PyFloat.WF, PyFloat.ofInt]
    have wf100 : (PyFloat.ofInt 100).WF := by norm_num [PyFloat.WF, PyFloat.ofInt]
    have hle := PyFloat.le_iff hp wf0
    have hlt := PyFloat.lt_iff wf100 hp
    rw [PyFloat.ofInt_toRat] at hle hlt
    push_cast at hle hlt
    unfold TieredCache.percentage_check
    cases hb : p.le (PyFloat.ofInt 0) <;> cases hc : (PyFloat.ofInt 100).lt p
    · simp only [hb, hc, Bool.or_self, Bool.false_eq_true, if_false, Except.isOk,
        Except.toBool]
      constructor
      · intro _
        refine ⟨lt_of_not_le fun hx => ?_, le_of_not_lt fun hx => ?_⟩
        · rw [← hle] at hx; rw [hb] at hx; cases hx
        · rw [← hlt] at hx; rw [hc] at hx; cases hx
      · intro _; trivial
    · simp only [hb, hc, Bool.or_true, if_true, Except.isOk, Except.toBool]
      constructor
      · intro hx; cases hx
      · intro hx
        have := hlt.mp hc
        linarith [hx.2]
    · simp only [hb, hc, Bool.true_or, if_true, Except.isOk, Except.toBool]
      constructor
      · intro hx; cases hx
      · intro hx
        have := hle.mp hb
        linarith [hx.1]
    · simp only [hb, hc, Bool.true_or, if_true, Except.isOk, Except.toBool]
      constructor
      · intro hx; cases hx
      · intro hx
        have := hle.mp hb
        linarith [hx.1]
  · intro n
    simp [ClusterCreator.percentage_valid]

/-- C6 witness: 100 passes the tiered-cache validation and 0 passes the
cluster-creator tiered-storage validation, by the amended boundary rules. -/
theorem C6_percentage_boundary_rules_witness :
    (TieredCache.percentage_check (PyFloat.ofInt 100)).isOk = true ∧
    ClusterCreator.percentage_valid 0 = true := by
  constructor
  · exact (C6_percentage_boundary_rules.1 (PyFloat.ofInt 100)
      (by norm_num [PyFloat.WF, PyFloat.ofInt])).mpr
      (by norm_num [PyFloat.toRat, PyFloat.ofInt])
  · exact (C6_percentage_boundary_rules.2 0).mpr (by norm_num)

/-- C7: for a memory percentage of 50 on `ml.p5.48xlarge` (2048 GiB total
memory) with the buffer at its configured default of 1 GiB, the memory
calculation yields an allocation of 1024 GiB (the fraction 102400/100,
rendered `1Ti` for the DaemonSet) and a cache capacity of 1023 GiB, rendered
by the config formatter as the string `1023GiB`. -/
theorem C7_memory_calculation_scenario :
    TieredCache.calculate_memory_allocation_and_cache_capacity "ml.p5.48xlarge"
        (PyFloat.ofInt 50) (PyFloat.ofInt 1) false =
      .ok { memory_allocation_k8s_str := "1Ti"
          , memory_allocation_gib := ⟨102400, 100⟩
          , cache_capacity_config_str := "1023GiB"
          , cache_capacity_gib := 1023 } ∧
    (⟨102400, 100⟩ : PyFloat).toRat = 1024 := by
  constructor
  · decide
  · norm_num [PyFloat.toRat]

/-- Invariant of the add-on polling loop: it returns within one interval past
the deadline and its result is the status observed at the return time. -/
theorem Hpto.wait_for_addon_terminal_state_from_spec (statusAt : Nat → String)
    (max_wait_time : Nat) :
    ∀ n elapsed, max_wait_time - elapsed ≤ n → elapsed < max_wait_time + 30 →
    (Hpto.wait_for_addon_terminal_state_from statusAt max_wait_time elapsed).2 <
        max_wait_time + 30 ∧
    (Hpto.wait_for_addon_terminal_state_from statusAt max_wait_time elapsed).1 =
        statusAt (Hpto.wait_for_addon_terminal_state_from statusAt max_wait_time elapsed).2 := by
  intro n
  induction n with
  | zero =>
    intro elapsed hn h
    have hge : ¬ elapsed < max_wait_time := by omega
    unfold Hpto.wait_for_addon_terminal_state_from
    simp [hge, h]
  | succ n ih =>
    intro elapsed hn h
    unfold Hpto.wait_for_addon_terminal_state_from
    by_cases hlt : elapsed < max_wait_time
    · by_cases hterm : Hpto.isTerminalStatus (statusAt elapsed) = true
      · simp only [hlt, if_true, hterm]
        exact ⟨by omega, trivial⟩
      · simp only [hlt, if_true, hterm, Bool.false_eq_true, if_false]
        exact ih (elapsed + 30) (by omega) (by omega)
    · simp [hlt, h]

/-- Invariant of the DaemonSet polling loop on a never-ready resource: it
raises the timeout error within one interval past the deadline. -/
theorem TieredCache.wait_for_daemonset_ready_from_spec (readyAt : Nat → Bool)
    (timeout_seconds : Nat) (hnever : ∀ t, readyAt t = false) :
    ∀ n elapsed, timeout_seconds - elapsed ≤ n → elapsed < timeout_seconds + 5 →
    (TieredCache.wait_for_daemonset_ready_from readyAt timeout_seconds elapsed).1 =
        Except.error "Timeout waiting for DaemonSet to be ready" ∧
    (TieredCache.wait_for_daemonset_ready_from readyAt timeout_seconds elapsed).2 <
        timeout_seconds + 5 := by
  intro n
  induction n with
  | zero =>
    intro elapsed hn h
    have hge : ¬ elapsed < timeout_seconds := by omega
    unfold TieredCache.wait_for_daemonset_ready_from
    simp [hge, h]
  | succ n ih =>
    intro elapsed hn h
    unfold TieredCache.wait_for_daemonset_ready_from
    by_cases hlt : elapsed < timeout_seconds
    · simp only [hlt, if_true, hnever elapsed, Bool.false_eq_true, if_false]
      exact ih (elapsed + 5) (by omega) (by omega)
    · simp [hlt, h]

/-- C8: both readiness-waiting loops are total and bounded.  The HPTO add-on
waiter always returns within its timeout plus one 30 s polling interval and
returns the last observed state (the status read at the time of return); the
DaemonSet waiter on a resource that never becomes ready raises its timeout
error within the timeout plus one 5 s polling interval, rather than looping
unboundedly. -/
theorem C8_readiness_waiters_bounded :
    (∀ (statusAt : Nat → String) (max_wait_time : Nat),
        (Hpto.wait_for_addon_terminal_state statusAt max_wait_time).2 <
            max_wait_time + 30 ∧
        (Hpto.wait_for_addon_terminal_state statusAt max_wait_time).1 =
            statusAt (Hpto.wait_for_addon_terminal_state statusAt max_wait_time).2) ∧
    (∀ (readyAt : Nat → Bool) (timeout_minutes : Nat),
        (∀ t, readyAt t = false) →
        (TieredCache.wait_for_daemonset_ready readyAt timeout_minutes).1 =
            Except.error "Timeout waiting for DaemonSet to be ready" ∧
        (TieredCache.wait_for_daemonset_ready readyAt timeout_minutes).2 <
            timeout_minutes * 60 + 5) := by
  constructor
  · intro statusAt max_wait_time
    exact Hpto.wait_for_addon_terminal_state_from_spec statusAt max_wait_time
      max_wait_time 0 (by omega) (by omega)
  · intro readyAt timeout_minutes hnever
    exact TieredCache.wait_for_daemonset_ready_from_spec readyAt
      (timeout_minutes * 60) hnever (timeout_minutes * 60) 0 (by omega) (by omega)

/-- C8 witness: with a 300 s add-on budget and a status that never becomes
terminal, and a 1-minute DaemonSet budget on a never-ready DaemonSet, both
waiters return within one polling interval past their deadlines. -/
theorem C8_readiness_waiters_bounded_witness :
    (Hpto.wait_for_addon_terminal_state (fun _ => "CREATING") 300).2 < 330 ∧
    (TieredCache.wait_for_daemonset_ready (fun _ => false) 1).1 =
        Except.error "Timeout waiting for DaemonSet to be ready" := by
  constructor
  · exact (C8_readiness_waiters_bounded.1 (fun _ => "CREATING") 300).1
  · exact (C8_readiness_waiters_bounded.2 (fun _ => false) 1 (fun _ => rfl)).1

/-- C9: every Update event sent to the observability-stack handler publishes
a FAILED acknowledgment: `on_update` reads the name `event`, which is not
defined in its scope (it takes no parameters), so the Update path always
raises `NameError`, which the top-level handler converts to FAILED with that
message as the Reason. -/
theorem C9_observability_update_always_FAILED :
    ∀ (onCreate onDelete : Except String Observability.Resp),
      Observability.lambda_handler (some "Update") onCreate onDelete =
        [⟨"FAILED", some "FAILED", some "name 'event' is not defined", none⟩] := by
  intro onCreate onDelete
  rfl

/-- C10: when the parsed configuration does not have both tiered storage
enabled and KV cache enabled, `configure_kv_cache` returns a result with
`KVCacheConfigured: False` (and the `KV cache not enabled` reason) and
issues no mutation of the remote system: no ConfigMap apply, no DaemonSet
patch, no pod deletion. -/
theorem C10_disabled_config_no_mutation :
    ∀ (groups : List (String × String)) (w : TieredCache.KVWorld)
      (config : TieredCache.ParsedConfig),
      TieredCache.parse_config_from_env w.kvCacheConfig w.storageConfig groups =
        .ok config →
      ¬ (config.tiered_storage_enabled ∧ config.kv_cache_enabled) →
      TieredCache.configure_kv_cache groups w =
        (⟨false, "KV cache not enabled (check TIERED_STORAGE_CONFIG.Mode and TIERED_KV_CACHE_CONFIG.KVCacheMode)"⟩,
         []) := by
  intro groups w config hp hcfg
  unfold TieredCache.configure_kv_cache
  rw [hp]
  have hb : (config.tiered_storage_enabled && config.kv_cache_enabled) = false := by
    rcases Bool.eq_false_or_eq_true config.tiered_storage_enabled with h | h <;>
      rcases Bool.eq_false_or_eq_true config.kv_cache_enabled with h' | h' <;>
      simp [h, h'] at hcfg ⊢
  simp [hb]

/-- C10 witness: with KV cache mode `Enable` but tiered storage `Disable`,
`configure_kv_cache` reports not-configured and issues no effect. -/
theorem C10_disabled_config_no_mutation_witness :
    TieredCache.configure_kv_cache []
      { kvCacheConfig := some
          { kvCacheMode := some "Enable", nvmeMode := none, instanceGroup := [] }
      , storageConfig := some
          { mode := some "Disable"
          , instanceMemoryAllocationPercentage := some (PyFloat.ofInt 50) }
      , bufferGib := PyFloat.ofInt 1, testing := false
      , getConfigMapOk := .ok (), configMapChanged := true
      , applyConfigMapOk := .ok (), getDaemonsetOk := .ok ()
      , patchDaemonsetOk := .ok (), deletePodsOk := .ok ()
      , dsReadyAt := fun _ => true } =
      (⟨false, "KV cache not enabled (check TIERED_STORAGE_CONFIG.Mode and TIERED_KV_CACHE_CONFIG.KVCacheMode)"⟩,
       []) :=
  C10_disabled_config_no_mutation [] _
    { kv_cache_enabled := true, nvme_enabled := false
    , tiered_storage_enabled := false, memory_percentage := PyFloat.ofInt 50
    , instance_type := none, instance_groups := [] }
    (by rfl) (by simp)
